import Mathlib

/-!
Verification of the `threshold-bucket` crate against its specification.

The repository contains two crate generations side by side:

* variant 1: `src/lib.rs`, `src/inner.rs`, `src/permit.rs` and the tests
  under `src/tests/`.  `Inner` owns the refill configuration directly.
* variant 2: `src/builder.rs`, `src/permit/{mod,always,threshold}.rs`,
  `src/refill/{mod,rate}.rs`.  The refill algorithm lives in `RateRefill`
  and permit issuance in `AlwaysPermitter` / `ThresholdPermitter`.

Machine integers (`u64`, the `u32` cast in `interval * intervals as u32`,
the `as u64` casts of `u128` values) are modelled as `Nat` with explicit
reductions modulo `2 ^ 64` / `2 ^ 32` at the places where the Rust code
casts or where release-mode arithmetic wraps.  `Duration` is modelled as a
number of nanoseconds; `as_millis` is division by `1000000` and
`from_millis` is multiplication by `1000000`, exactly as in the source.

Concurrency: the atomic compare-and-swap loops are embedded twice.
`InnerState.refillStep` / `InnerState.tryAcquireTokens` give the
single-threaded execution, in which every `compare_exchange` succeeds on
its first attempt (no concurrent writer ever changes the value between the
load and the swap).  `acquireLoopAux` gives the loop of
`Inner::try_acquire` (inner.rs:84-106) under an arbitrary interference
environment: `reads i` is the value the `i`-th load observes and `casOk i`
tells whether the `i`-th `compare_exchange` succeeds.
-/

/-- `2 ^ 64`, the modulus of `u64` arithmetic. -/
def u64Mod : Nat := 2 ^ 64

/-- `2 ^ 32`, the modulus of the `as u32` cast. -/
def u32Mod : Nat := 2 ^ 32

/-- The error enum of `src/lib.rs` (lines 116-133).  `NotEnoughTokens`
carries a `Duration`, modelled in nanoseconds. -/
inductive Error where
  | ExceedMaxTokens : Error
  | HighContention : Error
  | InvalidPermit : Error
  | NotEnoughTokens : Nat → Error
deriving DecidableEq, Repr

/-- The build-error enum of `src/lib.rs` (lines 104-113). -/
inductive BuildError where
  | MissingRefillRate : BuildError
  | MissingMax : BuildError
deriving DecidableEq, Repr

/-- A permit (`src/permit.rs` variant 1, `src/permit/mod.rs` variant 2):
a weak reference to one `Inner`, modelled by the address (`Nat`) of the
store it was downgraded from.  Liveness of an address is supplied
externally as an `alive : Nat → Bool` map, modelling whether the strong
count of the `Arc` at that address is still positive. -/
structure Permit where
  target : Nat
deriving DecidableEq, Repr

/-- `Weak::upgrade` followed by `Arc::as_ptr`
(`Permit::addr`, src/permit/mod.rs:45-47): the address when the referent
is still alive, `none` otherwise. -/
def Permit.addr (alive : Nat → Bool) (p : Permit) : Option Nat :=
  if alive p.target then some p.target else none

/-- The state of variant 1's `Inner` (src/inner.rs:11-21): immutable
configuration (`refill`, `interval` in nanoseconds, `max`, `threshold`)
together with the two atomics, `available` and `refill_at` (the latter is
stored in milliseconds, as in the `AtomicU64`). -/
structure InnerState where
  refill : Nat
  interval : Nat
  max : Nat
  threshold : Nat
  available : Nat
  refillAtMs : Nat
deriving DecidableEq, Repr

/-- `Inner::new` (src/inner.rs:24-34): seeds `available` with
`threshold + refill` (a `u64` sum) and `refill_at` with
`interval.as_millis() as u64`. -/
def Inner.new (refill interval threshold max : Nat) : InnerState :=
  { refill := refill
    interval := interval
    max := max
    threshold := threshold
    available := (threshold + refill) % u64Mod
    refillAtMs := (interval / 1000000) % u64Mod }

/-- The interval count of `Inner::refill` (src/inner.rs:122):
`(1 + (elapsed - refill_at).as_nanos() / interval.as_nanos()) as u64`. -/
def intervalsFor (s : InnerState) (elapsed : Nat) : Nat :=
  (1 + (elapsed - s.refillAtMs * 1000000) / s.interval) % u64Mod

/-- The new due marker of `Inner::refill` (src/inner.rs:125,129-130):
`(refill_at + interval * (intervals as u32)).as_millis() as u64`. -/
def nextRefillAtMs (s : InnerState) (elapsed : Nat) : Nat :=
  ((s.refillAtMs * 1000000 + s.interval * (intervalsFor s elapsed % u32Mod)) / 1000000) % u64Mod

/-- The token credit of `Inner::refill` (src/inner.rs:140-148): add
`amount` to `available`, saturating the result at `max`.  The `u64`
subtraction `max - available` and the `fetch_add`s wrap modulo `2 ^ 64`
as in release-mode Rust. -/
def creditTokens (max available amount : Nat) : Nat :=
  if (available + amount) % u64Mod ≥ max then
    (available + (max + u64Mod - available) % u64Mod) % u64Mod
  else
    (available + amount) % u64Mod

/-- `Inner::refill` (src/inner.rs:109-151), single-threaded execution:
the `compare_exchange` on `refill_at` succeeds on the first iteration.
Returns `Except.error (refill_at - elapsed)` when the refill is not due
yet (the `Err` of the Rust `Result`), `Except.ok ()` after crediting. -/
def InnerState.refillStep (s : InnerState) (elapsed : Nat) : Except Nat Unit × InnerState :=
  if elapsed < s.refillAtMs * 1000000 then
    (Except.error (s.refillAtMs * 1000000 - elapsed), s)
  else
    (Except.ok (),
      { s with
        refillAtMs := nextRefillAtMs s elapsed
        available := creditTokens s.max s.available (intervalsFor s elapsed * s.refill % u64Mod) })

/-- `Inner::check_permit` (src/inner.rs:57-69), exactly as written:
`permit.0.upgrade().and_then(|b| if !ptr::eq(b, self) { Some(()) } else
{ None }).ok_or(InvalidPermit)`.  Note the negation: the check passes
precisely when the permit's referent is alive and is NOT `self`. -/
def checkPermit (selfAddr : Nat) (alive : Nat → Bool) (p : Permit) : Except Error Unit :=
  match (Permit.addr alive p).bind (fun b => if b ≠ selfAddr then some () else none) with
  | some _ => Except.ok ()
  | none => Except.error Error.InvalidPermit

/-- `Inner::try_permit` (src/inner.rs:48-54): grant a permit bound to
this store when `available >= threshold`, else `ExceedMaxTokens`. -/
def Inner.tryPermit (selfAddr : Nat) (s : InnerState) : Except Error Permit :=
  if s.available ≥ s.threshold then Except.ok (Permit.mk selfAddr)
  else Except.error Error.ExceedMaxTokens

/-- The refill-then-CAS-loop body of `Inner::try_acquire`
(src/inner.rs:77-106), single-threaded execution: the
`compare_exchange` on `available` succeeds on the first attempt.
`elapsed` is the value of `start.elapsed()` at line 77, `elapsed2` the
value of the second `start.elapsed()` call at line 88.  The subtraction
`available.saturating_sub(num)` is `Nat` subtraction. -/
def InnerState.tryAcquireTokens (s : InnerState) (elapsed elapsed2 num : Nat) :
    Except Error Nat × InnerState :=
  if ((s.refillStep elapsed).2).available < num then
    (Except.error (Error.NotEnoughTokens
        (match (s.refillStep elapsed).1 with
          | Except.ok _ => elapsed2
          | Except.error w => w)),
      (s.refillStep elapsed).2)
  else
    (Except.ok num,
      { (s.refillStep elapsed).2 with
        available := ((s.refillStep elapsed).2).available - num })

/-- `Inner::try_acquire` (src/inner.rs:75-107): permit check first, then
refill and the acquire loop. -/
def Inner.tryAcquire (selfAddr : Nat) (alive : Nat → Bool) (p : Permit) (s : InnerState)
    (elapsed elapsed2 num : Nat) : Except Error Nat × InnerState :=
  match checkPermit selfAddr alive p with
  | Except.error e => (Except.error e, s)
  | Except.ok _ => s.tryAcquireTokens elapsed elapsed2 num

/-- The `for _ in 0..0x10000` compare-and-swap loop of
`Inner::try_acquire` (src/inner.rs:84-106) under an arbitrary
interference environment: at attempt `i` the load observes `reads i` and
the `compare_exchange` succeeds iff `casOk i`.  `wait` is the duration
put into `NotEnoughTokens` (computed before/inside the loop from the
refill result).  Fuel `0` is the loop running out of iterations:
`HighContention`. -/
def acquireLoopAux (reads : Nat → Nat) (casOk : Nat → Bool) (num wait : Nat) :
    Nat → Nat → Except Error Nat
  | 0, _ => Except.error Error.HighContention
  | fuel + 1, i =>
    if reads i < num then Except.error (Error.NotEnoughTokens wait)
    else if casOk i then Except.ok num
    else acquireLoopAux reads casOk num wait fuel (i + 1)

/-- The loop bound `0x10000` of src/inner.rs:84. -/
def casAttemptCap : Nat := 65536

/-- The full bounded loop of `Inner::try_acquire`. -/
def acquireLoop (reads : Nat → Nat) (casOk : Nat → Bool) (num wait : Nat) : Except Error Nat :=
  acquireLoopAux reads casOk num wait casAttemptCap 0

/-- States reachable from `Inner::new`.  `Bucket::available` and
`Inner::try_permit` only perform atomic loads (src/inner.rs:36-38,48-54)
and never write, so the only mutating public operation is
`Inner::try_acquire`, with arbitrary permit, clock readings and amount. -/
inductive Reachable (q i t m : Nat) : InnerState → Prop where
  | init : Reachable q i t m (Inner.new q i t m)
  | acquire (s : InnerState) (sa : Nat) (alive : Nat → Bool) (p : Permit) (e e2 n : Nat) :
      Reachable q i t m s → Reachable q i t m (Inner.tryAcquire sa alive p s e e2 n).2

/-- The state of variant 2's `RateRefill` (src/refill/rate.rs:10-16). -/
structure RateRefill where
  quantity : Nat
  interval : Nat
  max : Nat
  refillAtMs : Nat
deriving DecidableEq, Repr

/-- `RateRefill::refill` (src/refill/rate.rs:30-69), single-threaded
execution.  The loop loads `refill_at`, returns early when the refill is
not due, computes `intervals` and the next due marker, and the
`compare_exchange` succeeds on the first attempt — `break` (rate.rs:57)
then leaves the loop BEFORE the token `fetch_add` statements
(rate.rs:60-67), which sit after the `if ... { break; }` inside the loop
body, so the token count is returned unchanged. -/
def RateRefill.refillStep (r : RateRefill) (elapsed tokens : Nat) : Nat × RateRefill :=
  if elapsed < r.refillAtMs * 1000000 then (tokens, r)
  else
    (tokens,
      { r with
        refillAtMs :=
          ((r.refillAtMs * 1000000 +
              r.interval * (((1 + (elapsed - r.refillAtMs * 1000000) / r.interval) % u64Mod) % u32Mod))
            / 1000000) % u64Mod })

/-- `RateRefill::wait_for` (src/refill/rate.rs:72-80): zero when
`requested < available` (strict), otherwise
`from_millis(refill_at) + interval * (((requested - available) / quantity) as u32)`. -/
def RateRefill.waitFor (r : RateRefill) (available requested : Nat) : Option Nat :=
  some (if requested < available then 0
    else r.refillAtMs * 1000000 + r.interval * (((requested - available) / r.quantity) % u32Mod))

/-- `ThresholdPermitter::get_permit` (src/permit/threshold.rs:15-22):
grant a permit bound to the store at `selfAddr` iff
`available >= threshold`. -/
def ThresholdPermitter.getPermit (threshold selfAddr available : Nat) : Option Permit :=
  if available ≥ threshold then some (Permit.mk selfAddr) else none

/-- `ThresholdPermitter::belongs` (src/permit/threshold.rs:24-29), the
same code as `AlwaysPermitter::belongs` (src/permit/always.rs:24-29):
`permit.addr().map(|a| ptr::eq(self_ptr, a)).unwrap_or(false)`. -/
def ThresholdPermitter.belongs (selfAddr : Nat) (alive : Nat → Bool) (p : Permit) : Bool :=
  ((Permit.addr alive p).map (fun a => selfAddr == a)).getD false

/-- A builder for the variant-1 `Bucket`.

Modelled from the spec: the builder used by `src/tests/` and the
`src/lib.rs` doc example (`refill_rate(quantity, interval)`,
`threshold(value)`, `max(value)`, `build()`) is not under `src/` — only
its `BuildError` declarations (src/lib.rs:104-113) and its callers are.
Per spec §4.4/§6, `build()` requires the refill configuration and the
capacity maximum, failing with the error of the first missing required
field (refill configuration, then capacity maximum); the threshold is
optional with default `0`; a successful build produces the bucket of
`Bucket::new`/`Inner::new` (src/lib.rs:54-58). -/
structure Builder where
  refillRate : Option (Nat × Nat) := none
  threshold : Option Nat := none
  max : Option Nat := none
deriving DecidableEq, Repr

/-- Modelled from the spec: `Builder::build` for the variant-1 builder
(see `Builder`).  Checks the refill rate first, then the maximum. -/
def Builder.build (b : Builder) : Except BuildError InnerState :=
  match b.refillRate with
  | none => Except.error BuildError.MissingRefillRate
  | some (q, i) =>
    match b.max with
    | none => Except.error BuildError.MissingMax
    | some m => Except.ok (Inner.new q i (b.threshold.getD 0) m)

/-- A liveness map with stores at addresses `0` and `1` alive and every
other address dropped. -/
def aliveTwo : Nat → Bool := fun a => a < 2

/-! ## Helper lemmas -/

theorem creditTokens_le (m a amt : Nat) (ha : a ≤ m) (hm : m < u64Mod) :
    creditTokens m a amt ≤ m := by
  unfold creditTokens
  split_ifs with hc
  · have h1 : m + u64Mod - a = u64Mod + (m - a) := by omega
    rw [h1, Nat.add_mod_left, Nat.mod_eq_of_lt (by omega : m - a < u64Mod),
      (by omega : a + (m - a) = m), Nat.mod_eq_of_lt hm]
  · omega

theorem refillStep_snd_max (s : InnerState) (e : Nat) :
    ((s.refillStep e).2).max = s.max := by
  unfold InnerState.refillStep
  split <;> rfl

theorem refillStep_available_le (s : InnerState) (e : Nat)
    (ha : s.available ≤ s.max) (hm : s.max < u64Mod) :
    ((s.refillStep e).2).available ≤ s.max := by
  unfold InnerState.refillStep
  split
  · exact ha
  · exact creditTokens_le _ _ _ ha hm

theorem refillStep_not_due (s : InnerState) (e : Nat) (h : e < s.refillAtMs * 1000000) :
    s.refillStep e = (Except.error (s.refillAtMs * 1000000 - e), s) := by
  unfold InnerState.refillStep
  rw [if_pos h]

theorem refillStep_fst_due (s : InnerState) (e : Nat) (h : ¬ e < s.refillAtMs * 1000000) :
    (s.refillStep e).1 = Except.ok () := by
  unfold InnerState.refillStep
  rw [if_neg h]

theorem tryAcquireTokens_snd_max (s : InnerState) (e e2 n : Nat) :
    ((s.tryAcquireTokens e e2 n).2).max = s.max := by
  unfold InnerState.tryAcquireTokens
  split
  · exact refillStep_snd_max s e
  · exact refillStep_snd_max s e

theorem tryAcquireTokens_available_le (s : InnerState) (e e2 n : Nat)
    (ha : s.available ≤ s.max) (hm : s.max < u64Mod) :
    ((s.tryAcquireTokens e e2 n).2).available ≤ s.max := by
  unfold InnerState.tryAcquireTokens
  split
  · exact refillStep_available_le s e ha hm
  · exact le_trans (Nat.sub_le _ _) (refillStep_available_le s e ha hm)

theorem tryAcquire_snd_max (sa : Nat) (alive : Nat → Bool) (p : Permit) (s : InnerState)
    (e e2 n : Nat) : ((Inner.tryAcquire sa alive p s e e2 n).2).max = s.max := by
  unfold Inner.tryAcquire
  split
  · rfl
  · exact tryAcquireTokens_snd_max s e e2 n

theorem tryAcquire_available_le (sa : Nat) (alive : Nat → Bool) (p : Permit) (s : InnerState)
    (e e2 n : Nat) (ha : s.available ≤ s.max) (hm : s.max < u64Mod) :
    ((Inner.tryAcquire sa alive p s e e2 n).2).available ≤ s.max := by
  unfold Inner.tryAcquire
  split
  · exact ha
  · exact tryAcquireTokens_available_le s e e2 n ha hm

theorem acquireLoopAux_contention (reads : Nat → Nat) (casOk : Nat → Bool) (num wait : Nat) :
    ∀ fuel i, (∀ j, j < fuel → num ≤ reads (i + j) ∧ casOk (i + j) = false) →
      acquireLoopAux reads casOk num wait fuel i = Except.error Error.HighContention := by
  intro fuel
  induction fuel with
  | zero => intro i _; rfl
  | succ fuel ih =>
    intro i h
    have h0 := h 0 (Nat.succ_pos fuel)
    rw [Nat.add_zero] at h0
    unfold acquireLoopAux
    rw [if_neg (Nat.not_lt.mpr h0.1), h0.2, if_neg Bool.false_ne_true]
    exact ih (i + 1) (fun j hj => by
      have hj2 := h (j + 1) (Nat.succ_lt_succ hj)
      rwa [show i + (j + 1) = i + 1 + j by omega] at hj2)

/-! ## Claim theorems -/

/-- C1: the identity check of `Inner::check_permit` is inverted with
respect to the claim, the repository's own tests (src/tests/permit.rs)
and the doc comment of the function.  With stores `0` and `1` alive and
store `2` dropped: a permit obtained from store `0` and presented back to
store `0` is REJECTED with the invalid-permit error, a permit obtained
from the distinct store `1` is ACCEPTED by store `0`, and only the
dropped-store case behaves as claimed.  `ThresholdPermitter::belongs`
(variant 2) implements the claimed identity semantics. -/
theorem c1_check_permit_inverted :
    checkPermit 0 aliveTwo (Permit.mk 0) = Except.error Error.InvalidPermit
    ∧ checkPermit 0 aliveTwo (Permit.mk 1) = Except.ok ()
    ∧ checkPermit 0 aliveTwo (Permit.mk 2) = Except.error Error.InvalidPermit
    ∧ ThresholdPermitter.belongs 0 aliveTwo (Permit.mk 0) = true
    ∧ ThresholdPermitter.belongs 0 aliveTwo (Permit.mk 1) = false
    ∧ ThresholdPermitter.belongs 0 aliveTwo (Permit.mk 2) = false :=
  ⟨rfl, rfl, rfl, rfl, rfl, rfl⟩

/-- C2 (counterexample): construction does not clamp the seeded count to
`max`.  With refill quantity `10`, threshold `100` and `max = 50`,
`Inner::new` seeds `available = 110 > 50`, so the claimed invariant
`available ≤ max` already fails in the initial state. -/
theorem c2_counterexample :
    ¬ ((Inner.new 10 10000000000 100 50).available ≤ (Inner.new 10 10000000000 100 50).max) := by
  decide

/-- C2 (amended): provided the seeded count `(threshold + refill) mod 2^64`
is at most `max` and `max` fits in a `u64`, every state reachable from
construction by any sequence of `available`, `try_permit` and
`try_acquire` calls satisfies `available ≤ max` (`0 ≤ available` holds
trivially over `Nat`), and the capacity ceiling never changes. -/
theorem c2_invariant_amended (q i t m : Nat) (hm : m < u64Mod)
    (hinit : (t + q) % u64Mod ≤ m) :
    ∀ s : InnerState, Reachable q i t m s → s.available ≤ m ∧ s.max = m := by
  intro s hs
  induction hs with
  | init => exact ⟨hinit, rfl⟩
  | acquire s sa alive p e e2 n _ ih =>
    refine ⟨?_, by rw [tryAcquire_snd_max, ih.2]⟩
    have h1 := tryAcquire_available_le sa alive p s e e2 n (ih.2 ▸ ih.1) (ih.2 ▸ hm)
    exact ih.2 ▸ h1

/-- C2 (witness): the amended invariant applied to the configuration of
the crate's doc example (quantity 10, interval 10 s, threshold 100,
max 200) in its initial state. -/
theorem c2_invariant_witness :
    (200 < u64Mod ∧ (100 + 10) % u64Mod ≤ 200)
    ∧ ((Inner.new 10 10000000000 100 200).available ≤ 200
        ∧ (Inner.new 10 10000000000 100 200).max = 200) :=
  ⟨⟨by decide, by decide⟩,
    c2_invariant_amended 10 10000000000 100 200 (by decide) (by decide) _ Reachable.init⟩

/-- C3: the two refill implementations disagree, and `RateRefill::refill`
(variant 2) violates the claim.  With quantity 10, a 10-second interval,
`max = 200`, 100 tokens and elapsed time exactly one interval
(`k = 1`): the variant-1 `Inner::refill` credits `k·q = 10` tokens and
advances the due marker (available 110, due marker 20000 ms), matching
`min(c + k·q, max) = 110`; but in `RateRefill::refill` the token
increment sits after the successful-CAS `break` inside the loop, so the
thread that wins the due-marker swap credits nothing: the due marker
advances while the token count stays 100 ≠ 110. -/
theorem c3_rate_refill_no_credit :
    (RateRefill.refillStep (RateRefill.mk 10 10000000000 200 10000) 10000000000 100).1 = 100
    ∧ (RateRefill.refillStep (RateRefill.mk 10 10000000000 200 10000) 10000000000 100).2.refillAtMs
        = 20000
    ∧ ((InnerState.refillStep (InnerState.mk 10 10000000000 200 0 100 10000) 10000000000).2).available
        = 110
    ∧ ((InnerState.refillStep (InnerState.mk 10 10000000000 200 0 100 10000) 10000000000).2).refillAtMs
        = 20000
    ∧ min (100 + 1 * 10) 200 = 110
    ∧ (100 : Nat) ≠ 110 := by
  refine ⟨rfl, by decide, by decide, by decide, by decide, by decide⟩

/-- C4: boundary behaviour of `try_acquire` when the permit check passes
and no refill interval has elapsed: acquiring exactly `available` tokens
succeeds and leaves `0`; acquiring `available + 1` fails with the
not-enough-tokens outcome and leaves the state unchanged; and every
failing call deducts nothing. -/
theorem c4_boundary_exact (sa : Nat) (alive : Nat → Bool) (p : Permit) (s : InnerState)
    (e e2 : Nat) (hp : checkPermit sa alive p = Except.ok ())
    (hdue : e < s.refillAtMs * 1000000) :
    Inner.tryAcquire sa alive p s e e2 s.available
      = (Except.ok s.available, { s with available := 0 })
    ∧ Inner.tryAcquire sa alive p s e e2 (s.available + 1)
      = (Except.error (Error.NotEnoughTokens (s.refillAtMs * 1000000 - e)), s)
    ∧ ∀ n err, (Inner.tryAcquire sa alive p s e e2 n).1 = Except.error err →
        (Inner.tryAcquire sa alive p s e e2 n).2 = s := by
  have hr := refillStep_not_due s e hdue
  refine ⟨?_, ?_, ?_⟩
  · unfold Inner.tryAcquire
    rw [hp]
    unfold InnerState.tryAcquireTokens
    rw [hr]
    simp
  · unfold Inner.tryAcquire
    rw [hp]
    unfold InnerState.tryAcquireTokens
    rw [hr]
    simp
  · intro n err h1
    unfold Inner.tryAcquire at h1 ⊢
    rw [hp] at h1 ⊢
    unfold InnerState.tryAcquireTokens at h1 ⊢
    rw [hr] at h1 ⊢
    by_cases hn : s.available < n
    · simp [hn]
    · simp [hn] at h1

/-- C4 (witness): the boundary theorem applied to a bucket with 10
available tokens (quantity 10, interval 1 ms, threshold 0, max 100), a
passing permit and elapsed time 0. -/
theorem c4_boundary_witness :
    (checkPermit 0 aliveTwo (Permit.mk 1) = Except.ok ()
      ∧ 0 < (Inner.new 10 1000000 0 100).refillAtMs * 1000000)
    ∧ Inner.tryAcquire 0 aliveTwo (Permit.mk 1) (Inner.new 10 1000000 0 100) 0 0
          (Inner.new 10 1000000 0 100).available
        = (Except.ok (Inner.new 10 1000000 0 100).available,
            { Inner.new 10 1000000 0 100 with available := 0 })
    ∧ Inner.tryAcquire 0 aliveTwo (Permit.mk 1) (Inner.new 10 1000000 0 100) 0 0
          ((Inner.new 10 1000000 0 100).available + 1)
        = (Except.error (Error.NotEnoughTokens
              ((Inner.new 10 1000000 0 100).refillAtMs * 1000000 - 0)),
            Inner.new 10 1000000 0 100) :=
  ⟨⟨rfl, by decide⟩,
    (c4_boundary_exact 0 aliveTwo (Permit.mk 1) (Inner.new 10 1000000 0 100) 0 0 rfl (by decide)).1,
    (c4_boundary_exact 0 aliveTwo (Permit.mk 1) (Inner.new 10 1000000 0 100) 0 0 rfl (by decide)).2.1⟩

/-- C5: a permit request succeeds iff the available count at the instant
of the check is at least the threshold, and fails with the
exceeds-capacity outcome otherwise — for both `Inner::try_permit`
(variant 1, error `ExceedMaxTokens`) and `ThresholdPermitter::get_permit`
(variant 2, `None`). -/
theorem c5_threshold_gate (sa : Nat) (s : InnerState) (th addr avail : Nat) :
    (Inner.tryPermit sa s = Except.ok (Permit.mk sa) ↔ s.threshold ≤ s.available)
    ∧ (s.available < s.threshold → Inner.tryPermit sa s = Except.error Error.ExceedMaxTokens)
    ∧ (ThresholdPermitter.getPermit th addr avail = some (Permit.mk addr) ↔ th ≤ avail)
    ∧ (avail < th → ThresholdPermitter.getPermit th addr avail = none) := by
  refine ⟨?_, ?_, ?_, ?_⟩
  · unfold Inner.tryPermit
    split_ifs with hge
    · simp [hge]
    · simp [hge]
  · intro h
    unfold Inner.tryPermit
    rw [if_neg (Nat.not_le.mpr h)]
  · unfold ThresholdPermitter.getPermit
    split_ifs with hge
    · simp [hge]
    · simp [hge]
  · intro h
    unfold ThresholdPermitter.getPermit
    rw [if_neg (Nat.not_le.mpr h)]

/-- C5 (witness): the gate theorem at the doc-example bucket (threshold
100) with 110 available (grant) and 55 available (reject), in both
variants. -/
theorem c5_threshold_gate_witness :
    Inner.tryPermit 0 (Inner.new 10 10000000000 100 200) = Except.ok (Permit.mk 0)
    ∧ Inner.tryPermit 0 (InnerState.mk 10 10000000000 200 100 55 10000)
        = Except.error Error.ExceedMaxTokens
    ∧ ThresholdPermitter.getPermit 100 0 55 = none :=
  ⟨(c5_threshold_gate 0 (Inner.new 10 10000000000 100 200) 100 0 55).1.mpr (by decide),
    (c5_threshold_gate 0 (InnerState.mk 10 10000000000 200 100 55 10000) 100 0 55).2.1 (by decide),
    (c5_threshold_gate 0 (Inner.new 10 10000000000 100 200) 100 0 55).2.2.2 (by decide)⟩

/-- C6 (counterexample): the wait estimate carried by the
not-enough-tokens outcome is NOT `wait_for`'s value.  Bucket with
quantity 10, 10-second interval, 10 available, due marker at 10 s,
elapsed 0, requesting 45: `Inner::try_acquire` carries 10 s (the time to
the next refill boundary), while `RateRefill::wait_for(10, 45)` gives
40 s.  Moreover at `requested = available` (5, 5) `wait_for` returns the
due marker 10 s, not zero as the claim states. -/
theorem c6_wait_counterexample :
    (InnerState.tryAcquireTokens (InnerState.mk 10 10000000000 200 0 10 10000) 0 0 45).1
        = Except.error (Error.NotEnoughTokens 10000000000)
    ∧ RateRefill.waitFor (RateRefill.mk 10 10000000000 200 10000) 10 45 = some 40000000000
    ∧ (10000000000 : Nat) ≠ 40000000000
    ∧ RateRefill.waitFor (RateRefill.mk 10 10000000000 200 10000) 5 5 = some 10000000000
    ∧ (10000000000 : Nat) ≠ 0 :=
  ⟨rfl, by decide, by decide, by decide, by decide⟩

/-- C6 (amended): when `try_acquire` fails for lack of tokens, the
carried estimate is the time remaining until the next refill boundary
(`refill_at − elapsed`) when the refill was not yet due, and the
re-read elapsed time when a refill had just been applied; separately,
`RateRefill::wait_for` returns zero only when `requested < available`
(strictly), and otherwise
`(current due marker) + interval·floor((requested − available)/quantity)`
(with the interval count cast to `u32`). -/
theorem c6_wait_estimate_amended (s : InnerState) (e e2 num : Nat) (r : RateRefill)
    (a req : Nat) (hlt : ((s.refillStep e).2).available < num) :
    (s.tryAcquireTokens e e2 num).1
      = Except.error (Error.NotEnoughTokens
          (if e < s.refillAtMs * 1000000 then s.refillAtMs * 1000000 - e else e2))
    ∧ (req < a → r.waitFor a req = some 0)
    ∧ (a ≤ req → r.waitFor a req
        = some (r.refillAtMs * 1000000 + r.interval * (((req - a) / r.quantity) % u32Mod))) := by
  refine ⟨?_, ?_, ?_⟩
  · unfold InnerState.tryAcquireTokens
    rw [if_pos hlt]
    by_cases hd : e < s.refillAtMs * 1000000
    · rw [if_pos hd, refillStep_not_due s e hd]
    · rw [if_neg hd, refillStep_fst_due s e hd]
  · intro h
    unfold RateRefill.waitFor
    rw [if_pos h]
  · intro h
    unfold RateRefill.waitFor
    rw [if_neg (Nat.not_lt.mpr h)]

/-- C6 (witness): the amended theorem at the counterexample's inputs. -/
theorem c6_wait_estimate_witness :
    (((InnerState.mk 10 10000000000 200 0 10 10000).refillStep 0).2).available < 45
    ∧ ((InnerState.mk 10 10000000000 200 0 10 10000).tryAcquireTokens 0 0 45).1
        = Except.error (Error.NotEnoughTokens 10000000000)
    ∧ RateRefill.waitFor (RateRefill.mk 10 10000000000 200 10000) 10 45
        = some (10000000000 + 10000000000 * (((45 - 10) / 10) % u32Mod)) :=
  ⟨by decide,
    (c6_wait_estimate_amended (InnerState.mk 10 10000000000 200 0 10 10000) 0 0 45
      (RateRefill.mk 10 10000000000 200 10000) 10 45 (by decide)).1,
    (c6_wait_estimate_amended (InnerState.mk 10 10000000000 200 0 10 10000) 0 0 45
      (RateRefill.mk 10 10000000000 200 10000) 10 45 (by decide)).2.2 (by decide)⟩

/-- C7: the spec/test scenario (quantity 10 per 10 s, threshold 100,
max 200, start 110): acquiring 55 tokens through a permit that passes the
code's check succeeds leaving 55 available, but the subsequent permit
request fails with the bare `ExceedMaxTokens` outcome, which carries no
wait estimate — not with a not-enough-tokens outcome carrying a 49–51 s
estimate as the claim (and src/tests/tokens.rs::exceed_threshold)
state. -/
theorem c7_threshold_example_divergence :
    (Inner.tryAcquire 0 aliveTwo (Permit.mk 1) (Inner.new 10 10000000000 100 200) 0 0 55).1
        = Except.ok 55
    ∧ ((Inner.tryAcquire 0 aliveTwo (Permit.mk 1) (Inner.new 10 10000000000 100 200) 0 0 55).2).available
        = 55
    ∧ Inner.tryPermit 0
          ((Inner.tryAcquire 0 aliveTwo (Permit.mk 1) (Inner.new 10 10000000000 100 200) 0 0 55).2)
        = Except.error Error.ExceedMaxTokens :=
  ⟨rfl, by decide, rfl⟩

/-- C8: the compare-and-swap loop of `Inner::try_acquire` is capped at
`casAttemptCap = 65536` attempts; when every attempt observes enough
tokens but loses the swap to a concurrent writer, the call returns the
high-contention failure, a constructor distinct from the
not-enough-tokens failure. -/
theorem c8_contention_bound (reads : Nat → Nat) (casOk : Nat → Bool) (num wait : Nat)
    (h : ∀ i, i < casAttemptCap → num ≤ reads i ∧ casOk i = false) :
    acquireLoop reads casOk num wait = Except.error Error.HighContention
    ∧ casAttemptCap = 65536
    ∧ ∀ w, Error.HighContention ≠ Error.NotEnoughTokens w := by
  refine ⟨?_, rfl, fun w => by simp⟩
  unfold acquireLoop
  exact acquireLoopAux_contention reads casOk num wait casAttemptCap 0
    (fun j hj => by simpa using h j (by simpa using hj))

/-- C8 (witness): a concrete all-failing environment (5 tokens observed
at every attempt, request of 1, every swap lost). -/
theorem c8_contention_bound_witness :
    acquireLoop (fun _ => 5) (fun _ => false) 1 3 = Except.error Error.HighContention :=
  (c8_contention_bound (fun _ => 5) (fun _ => false) 1 3
    (fun i _ => ⟨(by decide : (1 : Nat) ≤ 5), rfl⟩)).1

/-- C9: `Builder::build` returns a bucket exactly when both required
fields (refill rate, then capacity maximum) are present; otherwise it
fails with the error of the first missing required field, the two error
kinds are distinct, and a successful build is exactly the fully
constructed bucket of `Inner::new`. -/
theorem c9_builder_required_fields (b : Builder) :
    ((∃ s, b.build = Except.ok s) ↔ b.refillRate.isSome ∧ b.max.isSome)
    ∧ (b.refillRate = none → b.build = Except.error BuildError.MissingRefillRate)
    ∧ (∀ q i, b.refillRate = some (q, i) → b.max = none →
        b.build = Except.error BuildError.MissingMax)
    ∧ (∀ q i m, b.refillRate = some (q, i) → b.max = some m →
        b.build = Except.ok (Inner.new q i (b.threshold.getD 0) m))
    ∧ BuildError.MissingRefillRate ≠ BuildError.MissingMax := by
  rcases hrr : b.refillRate with _ | ⟨q, i⟩ <;> rcases hmx : b.max with _ | m <;>
    simp [Builder.build, hrr, hmx]

/-- C9 (witness): the builder theorem at a fully-specified builder, one
missing the refill rate and one missing the maximum. -/
theorem c9_builder_witness :
    Builder.build { refillRate := some (10, 10000000000), threshold := some 100, max := some 200 }
        = Except.ok (Inner.new 10 10000000000 100 200)
    ∧ Builder.build { refillRate := none, threshold := some 100, max := some 200 }
        = Except.error BuildError.MissingRefillRate
    ∧ Builder.build { refillRate := some (10, 10000000000), threshold := none, max := none }
        = Except.error BuildError.MissingMax :=
  ⟨(c9_builder_required_fields
      { refillRate := some (10, 10000000000), threshold := some 100, max := some 200 }).2.2.2.1
      10 10000000000 200 rfl rfl,
    (c9_builder_required_fields
      { refillRate := none, threshold := some 100, max := some 200 }).2.1 rfl,
    (c9_builder_required_fields
      { refillRate := some (10, 10000000000), threshold := none, max := none }).2.2.1
      10 10000000000 rfl rfl⟩

/-- C10: for any state and clock readings, acquiring zero tokens through
a permit that passes the identity check always succeeds, returns a
deducted amount of 0, and leaves the state exactly as the refill
sub-protocol left it (the counter itself is not changed by the
deduction). -/
theorem c10_zero_acquire (sa : Nat) (alive : Nat → Bool) (p : Permit) (s : InnerState)
    (e e2 : Nat) (hp : checkPermit sa alive p = Except.ok ()) :
    (Inner.tryAcquire sa alive p s e e2 0).1 = Except.ok 0
    ∧ (Inner.tryAcquire sa alive p s e e2 0).2 = (s.refillStep e).2 := by
  unfold Inner.tryAcquire
  rw [hp]
  unfold InnerState.tryAcquireTokens
  rw [if_neg (Nat.not_lt_zero _)]
  exact ⟨rfl, rfl⟩

/-- C10 (witness): the zero-acquire theorem at a concrete bucket and a
passing permit. -/
theorem c10_zero_acquire_witness :
    checkPermit 0 aliveTwo (Permit.mk 1) = Except.ok ()
    ∧ (Inner.tryAcquire 0 aliveTwo (Permit.mk 1) (Inner.new 10 1000000 0 100) 0 0 0).1
        = Except.ok 0
    ∧ (Inner.tryAcquire 0 aliveTwo (Permit.mk 1) (Inner.new 10 1000000 0 100) 0 0 0).2
        = ((Inner.new 10 1000000 0 100).refillStep 0).2 :=
  ⟨rfl,
    (c10_zero_acquire 0 aliveTwo (Permit.mk 1) (Inner.new 10 1000000 0 100) 0 0 rfl).1,
    (c10_zero_acquire 0 aliveTwo (Permit.mk 1) (Inner.new 10 1000000 0 100) 0 0 rfl).2⟩
